import Mathlib

deriving instance DecidableEq for Except

/-!
# A shallow embedding of `backend/main.py`

The program is a small service that turns a theme into an illustrated
children's storybook: a story endpoint forwards a chat-completion call,
and a book endpoint fans out one image-generation call per scene
(a fixed cover prompt followed by the paragraphs verbatim), gathers the
results, and lays them out as a PDF (one cover page, then a text page and
an illustration page per paragraph).

External collaborators are modelled as oracle parameters:

* `chat : String → String → Except String String` is one chat-completion
  call; `.ok content` is the raw message content, `.error msg` a raised
  exception carrying `msg`.
* `svc : Nat → String → Option String` gives the outcome of the i-th
  external image request for a given full prompt; indexing by the call
  number lets distinct calls of the same book succeed or fail
  independently, as real network calls do.
* `schedule : List Nat` is the order in which the gathered image tasks
  complete; `asyncio.gather` observes completions in that order but
  always returns results in task-index order.

Machine-level PDF bytes are abstracted to a list of typed pages holding
exactly the data the code draws on each page.
-/

namespace Fabrica

/-- Errors observable at the service boundary.  `httpException s d`
models `HTTPException(status_code=s, detail=d)`; `indexError` models a
Python `IndexError` escaping from a list subscript.  The last two
constructors are the spec's `InvalidInput` and `InvariantViolation`
conditions, carried here so that statements can mention them. -/
inductive Err where
  | httpException (status : Nat) (detail : String)
  | indexError
  | invalidInput
  | invariantViolation
deriving DecidableEq, Repr

/-- A page of the produced document, carrying the data the code draws on
it: the cover image with the overlaid title, a paragraph text page, or a
full-page illustration. -/
inductive Page where
  | cover (image : String) (title : String)
  | text (paragraph : String)
  | illustration (image : String)
deriving DecidableEq, Repr

/-- `class StoryRequest(BaseModel): theme: str` -/
structure StoryRequest where
  theme : String
deriving DecidableEq, Repr

/-- `class BookRequest(BaseModel): title: str; paragraphs: List[str]` -/
structure BookRequest where
  title : String
  paragraphs : List String
deriving DecidableEq, Repr

/-- `list[i]` in Python: the element, or a raised `IndexError`. -/
def listGet {α : Type} (l : List α) (i : Nat) : Except Err α :=
  match l[i]? with
  | some x => .ok x
  | none => .error .indexError

/-- The module-level `ART_STYLE_PROMPT` string. -/
def ART_STYLE_PROMPT : String :=
  "\n**Art Style:** A high-quality digital painting in the style of a classic children\x27s book with a gentle, pictorial, and artisanal watercolor finish. The lighting must be warm and soft, creating a cozy and nostalgic atmosphere. All images must be in a 4:3 landscape aspect ratio.\n\n**Character Descriptions (Mandatory):**\n*   **Pepito:** A 3-year-old boy, small in stature, with messy dark brown hair, big brown eyes, and rosy cheeks. He is always wearing the exact same outfit: a sweater with horizontal red and orange stripes, and blue shorts. He has fair skin.\n*   **Pepón:** A 5-year-old boy, taller and sturdier than his brother, with neat dark brown hair. He is always wearing the exact same outfit: a blue and yellow polo shirt (remera tipo chomba) and dark long pants. He has the same fair skin as his brother.\n\n**Consistency Rule:** Pepito and Pepón must look identical in every single image, with the exact same face, hair, and clothing as described.\n"

/-- `full_prompt = f"{ART_STYLE_PROMPT}\n\n**Scene:** {prompt}"` inside
`generate_image_data`. -/
def full_prompt (prompt : String) : String :=
  ART_STYLE_PROMPT ++ "\n\n**Scene:** " ++ prompt

/-- One invocation of `generate_image_data`.  `call` is the outcome of
this particular external image request (decoded bytes, or `none` when
the request or the base64 decode raises).  Every exception is caught and
re-raised as an HTTP 500 whose detail repeats the scene prompt text. -/
def generate_image_data (call : String → Option String) (prompt : String) :
    Except Err String :=
  match call (full_prompt prompt) with
  | some data => .ok data
  | none => .error (.httpException 500 ("Failed to generate image for prompt: " ++ prompt))

/-- The per-paragraph loop of `create_pdf_book`: for the paragraph at
position `i` (0-based), draw a text page and then an illustration page
from `image_data[i + 1]`. -/
def bodyPages (image_data : List String) : Nat → List String → Except Err (List Page)
  | _, [] => .ok []
  | i, ptext :: rest =>
    match listGet image_data (i + 1) with
    | .error e => .error e
    | .ok img =>
      match bodyPages image_data (i + 1) rest with
      | .error e => .error e
      | .ok tail => .ok (Page.text ptext :: Page.illustration img :: tail)

/-- `create_pdf_book`: a cover page drawn from `image_data[0]` with the
title overlaid, then for each paragraph a text page followed by an
illustration page from `image_data[i + 1]`.  The code performs no length
check of its own; an out-of-range subscript raises `IndexError` and the
local buffer is never returned. -/
def create_pdf_book (title : String) (paragraphs : List String)
    (image_data : List String) : Except Err (List Page) :=
  match listGet image_data 0 with
  | .error e => .error e
  | .ok cov =>
    match bodyPages image_data 0 paragraphs with
    | .error e => .error e
    | .ok body => .ok (Page.cover cov title :: body)

/-- `if not api_key` in Python: true when the environment variable was
unset at startup (`none`) or set to the empty string. -/
def keyMissing : Option String → Bool
  | none => true
  | some k => k == ""

/-- The fixed system instruction of the story endpoint. -/
def system_prompt : String :=
  "\n    You are a creative storyteller for children. Your task is to write a short, magical story in Spanish.\n\n    **Rules:**\n    1. The story must be exactly 5 paragraphs long.\n    2. The language must be Argentinian Spanish. Use local vocabulary and phrasing naturally (e.g., \"vos\" instead of \"tú\", words like \"pileta\", \"vereda\", \"barrilete\" when appropriate).\n    3. The main characters are two brothers, Pepito (3 years old) and Pepón (5 years old). The story must be about them.\n    4. **Crucial Safety Rule:** The story can have a small, easily resolved problem or moment of tension, but it is absolutely forbidden for any character to get hurt, be in real danger, or experience significant fear. The tone must always be warm, safe, and reassuring.\n    5. The story must have a clear title.\n    6. Your output must be a JSON object with two keys: \"title\" (a string) and \"paragraphs\" (an array of 5 strings). Do not add any extra text or explanations outside of the JSON object.\n    "

/-- `user_prompt = f"The theme of the story is: {request.theme}"` -/
def user_prompt (theme : String) : String :=
  "The theme of the story is: " ++ theme

/-- The story endpoint `POST /api/generate-story`: after the API-key
check, the chat-completion content is returned verbatim — the code
parses nothing and validates nothing about its shape. -/
def generate_story (api_key : Option String)
    (chat : String → String → Except String String) (req : StoryRequest) :
    Except Err String :=
  if keyMissing api_key then
    .error (.httpException 500 "OPENAI_API_KEY is not configured on the server.")
  else
    match chat system_prompt (user_prompt req.theme) with
    | .ok content => .ok content
    | .error e => .error (.httpException 500 ("Failed to generate story. Error: " ++ e))

/-- The fixed cover prompt of `generate_book`. -/
def cover_prompt : String :=
  "A beautiful and attractive cover scene with the two protagonists, Pepito and Pepón, in a pleasant and safe natural landscape like a sunny meadow or a gentle forest. No text."

/-- `scene_prompts = [cover_prompt] + request.paragraphs` -/
def scene_prompts (paragraphs : List String) : List String :=
  cover_prompt :: paragraphs

/-- The task list built by the comprehension
`[generate_image_data(prompt) for prompt in scene_prompts]`; the i-th
task uses the outcome `svc i` of the i-th external image call. -/
def image_tasks (svc : Nat → String → Option String) :
    Nat → List String → List (Except Err String)
  | _, [] => []
  | i, p :: rest => generate_image_data (svc i) p :: image_tasks svc (i + 1) rest

/-- The first exception observed when the tasks complete in the order
given by `schedule`. -/
def firstFailure {α : Type} (tasks : List (Except Err α)) : List Nat → Option Err
  | [] => none
  | i :: rest =>
    match tasks[i]? with
    | some (.error e) => some e
    | _ => firstFailure tasks rest

/-- Reading the completed results back in task-index order. -/
def collectOk {α : Type} : List (Except Err α) → Except Err (List α)
  | [] => .ok []
  | .error e :: _ => .error e
  | .ok a :: rest =>
    match collectOk rest with
    | .error e => .error e
    | .ok l => .ok (a :: l)

/-- `asyncio.gather(*tasks)`: tasks complete in `schedule` order; the
first exception to complete propagates, otherwise the results come back
in task-index order, never in completion order. -/
def gather {α : Type} (schedule : List Nat) (tasks : List (Except Err α)) :
    Except Err (List α) :=
  match firstFailure tasks schedule with
  | some e => .error e
  | none => collectOk tasks

/-- The image fan-out inlined in `generate_book` (prompt construction
plus the gathered concurrent calls), i.e. the spec's
`generate_all_images`. -/
def generate_all_images (svc : Nat → String → Option String)
    (schedule : List Nat) (paragraphs : List String) : Except Err (List String) :=
  gather schedule (image_tasks svc 0 (scene_prompts paragraphs))

/-- `str(e)` for the exceptions the book endpoint can wrap. -/
def errMessage : Err → String
  | .httpException _ d => d
  | .indexError => "list index out of range"
  | .invalidInput => "invalid input"
  | .invariantViolation => "invariant violation"

/-- The book endpoint `POST /api/generate-book`: API-key check, image
fan-out, then PDF assembly.  An `HTTPException` from a helper is
re-raised as is; any other exception is wrapped into an HTTP 500. -/
def generate_book (api_key : Option String)
    (svc : Nat → String → Option String) (schedule : List Nat)
    (req : BookRequest) : Except Err (List Page) :=
  if keyMissing api_key then
    .error (.httpException 500 "OPENAI_API_KEY is not configured on the server.")
  else
    match generate_all_images svc schedule req.paragraphs with
    | .error e => .error e
    | .ok image_data_list =>
      match create_pdf_book req.title req.paragraphs image_data_list with
      | .ok pages => .ok pages
      | .error (.httpException s d) => .error (.httpException s d)
      | .error e => .error (.httpException 500 ("Failed to generate the book. Error: " ++ errMessage e))

/-! ## Helper lemmas about list lookup -/

theorem getElem?_some_of_lt {α : Type} :
    ∀ (l : List α) (i : Nat), i < l.length → ∃ x, l[i]? = some x := by
  intro l
  induction l with
  | nil => intro i hi; simp at hi
  | cons a t ih =>
    intro i hi
    cases i with
    | zero => exact ⟨a, List.getElem?_cons_zero⟩
    | succ j =>
      obtain ⟨x, hx⟩ := ih j (by simpa using hi)
      exact ⟨x, by simpa [List.getElem?_cons_succ] using hx⟩

theorem getElem?_none_of_le {α : Type} :
    ∀ (l : List α) (i : Nat), l.length ≤ i → l[i]? = none := by
  intro l
  induction l with
  | nil => intro i _; simp
  | cons a t ih =>
    intro i hi
    cases i with
    | zero => simp at hi
    | succ j => simpa [List.getElem?_cons_succ] using ih j (by simpa using hi)

theorem lt_length_of_getElem?_some {α : Type} (l : List α) (i : Nat) (x : α)
    (h : l[i]? = some x) : i < l.length := by
  by_contra hcon
  push_neg at hcon
  rw [getElem?_none_of_le l i hcon] at h
  cases h

/-! ## Helper lemmas about the fan-out embedding -/

theorem image_tasks_length (svc : Nat → String → Option String) :
    ∀ (scenes : List String) (k : Nat),
      (image_tasks svc k scenes).length = scenes.length := by
  intro scenes
  induction scenes with
  | nil => intro k; rfl
  | cons p rest ih => intro k; simp [image_tasks, ih]

theorem image_tasks_getElem? (svc : Nat → String → Option String) :
    ∀ (scenes : List String) (k i : Nat),
      (image_tasks svc k scenes)[i]? =
        (scenes[i]?).map fun p => generate_image_data (svc (k + i)) p := by
  intro scenes
  induction scenes with
  | nil => intro k i; simp [image_tasks]
  | cons p rest ih =>
    intro k i
    cases i with
    | zero => simp [image_tasks]
    | succ j =>
      have h := ih (k + 1) j
      rw [Nat.add_right_comm] at h
      simp [image_tasks, List.getElem?_cons_succ, h]
      rw [Nat.add_assoc]

theorem collectOk_map_ok {α : Type} :
    ∀ l : List α, collectOk (l.map Except.ok) = .ok l := by
  intro l
  induction l with
  | nil => rfl
  | cons a t ih => simp [collectOk, ih]

theorem eq_map_ok_of_collectOk {α : Type} :
    ∀ (tasks : List (Except Err α)) (l : List α),
      collectOk tasks = .ok l → tasks = l.map Except.ok := by
  intro tasks
  induction tasks with
  | nil =>
    intro l h
    simp only [collectOk] at h
    cases h
    rfl
  | cons head t ih =>
    intro l h
    cases head with
    | error e => simp [collectOk] at h
    | ok a =>
      cases hc : collectOk t with
      | error e => rw [collectOk, hc] at h; cases h
      | ok t' =>
        rw [collectOk, hc] at h
        cases h
        simp [ih t' hc]

theorem firstFailure_map_ok {α : Type} (l : List α) :
    ∀ schedule : List Nat, firstFailure (l.map Except.ok) schedule = none := by
  intro schedule
  induction schedule with
  | nil => rfl
  | cons i rest ih =>
    rw [firstFailure, List.getElem?_map]
    cases l[i]? with
    | none => simpa using ih
    | some a => simpa using ih

theorem firstFailure_isSome_of_mem {α : Type} :
    ∀ (schedule : List Nat) (tasks : List (Except Err α)) (i : Nat) (e : Err),
      i ∈ schedule → tasks[i]? = some (.error e) →
      ∃ f, firstFailure tasks schedule = some f := by
  intro schedule
  induction schedule with
  | nil => intro tasks i e hmem; cases hmem
  | cons j rest ih =>
    intro tasks i e hmem hfail
    rcases List.mem_cons.1 hmem with hji | hmem
    · subst hji
      exact ⟨e, by rw [firstFailure, hfail]⟩
    · cases hj : tasks[j]? with
      | none =>
        obtain ⟨f, hf⟩ := ih tasks i e hmem hfail
        exact ⟨f, by rw [firstFailure, hj, hf]⟩
      | some r =>
        cases r with
        | error f => exact ⟨f, by rw [firstFailure, hj]⟩
        | ok a =>
          obtain ⟨f, hf⟩ := ih tasks i e hmem hfail
          exact ⟨f, by rw [firstFailure, hj, hf]⟩

theorem image_tasks_congr (svc svc2 : Nat → String → Option String) :
    ∀ (scenes : List String) (k : Nat),
      (∀ i p, scenes[i]? = some p →
        svc (k+i) (full_prompt p) = svc2 (k+i) (full_prompt p)) →
      image_tasks svc k scenes = image_tasks svc2 k scenes := by
  intro scenes
  induction scenes with
  | nil => intro k _; rfl
  | cons p rest ih =>
    intro k hagree
    have hhead : svc k (full_prompt p) = svc2 k (full_prompt p) :=
      hagree 0 p List.getElem?_cons_zero
    have htail := ih (k+1) (fun i q hq => by
      have h := hagree (i+1) q (by rw [List.getElem?_cons_succ]; exact hq)
      rw [show k+(i+1) = k+1+i by omega] at h
      exact h)
    have hgid : generate_image_data (svc k) p = generate_image_data (svc2 k) p := by
      unfold generate_image_data
      rw [hhead]
    simp only [image_tasks, hgid, htail]

/-! ## Helper lemmas about the layout embedding -/

theorem bodyPages_ok :
    ∀ (paragraphs : List String) (k : Nat) (image_data : List String),
      k + paragraphs.length + 1 ≤ image_data.length →
      ∃ ps, bodyPages image_data k paragraphs = .ok ps ∧
        ps.length = 2 * paragraphs.length ∧
        ∀ i, i < paragraphs.length →
          ps[2*i]? = (paragraphs[i]?).map Page.text ∧
          ps[2*i+1]? = (image_data[k+i+1]?).map Page.illustration := by
  intro paragraphs
  induction paragraphs with
  | nil =>
    intro k image_data _
    refine ⟨[], rfl, rfl, ?_⟩
    intro i hi
    simp at hi
  | cons p rest ih =>
    intro k image_data h
    have hk1 : k + 1 < image_data.length := by
      simp only [List.length_cons] at h
      omega
    obtain ⟨img, himg⟩ := getElem?_some_of_lt image_data (k+1) hk1
    have hlg : listGet image_data (k+1) = .ok img := by
      unfold listGet; rw [himg]
    obtain ⟨ps, hps, hlen, hidx⟩ := ih (k+1) image_data
      (by simp only [List.length_cons] at h; omega)
    refine ⟨Page.text p :: Page.illustration img :: ps, ?_, ?_, ?_⟩
    · simp only [bodyPages, hlg, hps]
    · simp only [List.length_cons, hlen]
      omega
    · intro i hi
      cases i with
      | zero =>
        constructor
        · simp
        · simp [himg]
      | succ j =>
        have hj : j < rest.length := by
          simp only [List.length_cons] at hi
          omega
        obtain ⟨h1, h2⟩ := hidx j hj
        have e3 : k+1+j+1 = k+(j+1)+1 := by omega
        rw [e3] at h2
        constructor
        · have e1 : 2*(j+1) = 2*j+1+1 := by ring
          rw [e1]
          simp only [List.getElem?_cons_succ]
          exact h1
        · have e2 : 2*(j+1)+1 = 2*j+1+1+1 := by ring
          rw [e2]
          simp only [List.getElem?_cons_succ]
          exact h2

theorem bodyPages_error_of_lt :
    ∀ (paragraphs : List String) (k : Nat) (image_data : List String),
      paragraphs ≠ [] → image_data.length < k + paragraphs.length + 1 →
      bodyPages image_data k paragraphs = .error .indexError := by
  intro paragraphs
  induction paragraphs with
  | nil => intro k image_data hne _; exact absurd rfl hne
  | cons p rest ih =>
    intro k image_data _ hlt
    by_cases hk : image_data.length ≤ k + 1
    · have hnone : image_data[k+1]? = none := getElem?_none_of_le _ _ hk
      have hlg : listGet image_data (k+1) = (.error .indexError : Except Err String) := by
        unfold listGet; rw [hnone]
      simp only [bodyPages, hlg]
    · push_neg at hk
      have hrest : rest ≠ [] := by
        intro hr; subst hr
        simp only [List.length_cons, List.length_nil] at hlt
        omega
      obtain ⟨img, himg⟩ := getElem?_some_of_lt image_data (k+1) hk
      have hlg : listGet image_data (k+1) = .ok img := by
        unfold listGet; rw [himg]
      have hrec := ih (k+1) image_data hrest
        (by simp only [List.length_cons] at hlt; omega)
      simp only [bodyPages, hlg, hrec]

theorem bodyPages_congr :
    ∀ (paragraphs : List String) (k : Nat) (d1 d2 : List String),
      (∀ j, j < k + paragraphs.length + 1 → d1[j]? = d2[j]?) →
      bodyPages d1 k paragraphs = bodyPages d2 k paragraphs := by
  intro paragraphs
  induction paragraphs with
  | nil => intro k d1 d2 _; rfl
  | cons p rest ih =>
    intro k d1 d2 hagree
    have h1 : d1[k+1]? = d2[k+1]? :=
      hagree (k+1) (by simp only [List.length_cons]; omega)
    have hrec := ih (k+1) d1 d2
      (fun j hj => hagree j (by simp only [List.length_cons] at *; omega))
    simp only [bodyPages, listGet, h1, hrec]

theorem create_pdf_book_ok_of_le (title : String) (paragraphs image_data : List String)
    (h : paragraphs.length + 1 ≤ image_data.length) :
    ∃ pages, create_pdf_book title paragraphs image_data = .ok pages ∧
      pages.length = 1 + 2 * paragraphs.length ∧
      (∃ cov, image_data[0]? = some cov ∧ pages[0]? = some (Page.cover cov title)) ∧
      ∀ i, i < paragraphs.length →
        pages[2*i+1]? = (paragraphs[i]?).map Page.text ∧
        pages[2*i+2]? = (image_data[i+1]?).map Page.illustration := by
  obtain ⟨cov, hcov⟩ := getElem?_some_of_lt image_data 0 (by omega)
  have hlg : listGet image_data 0 = .ok cov := by
    unfold listGet; rw [hcov]
  obtain ⟨ps, hps, hlen, hidx⟩ := bodyPages_ok paragraphs 0 image_data (by omega)
  refine ⟨Page.cover cov title :: ps, ?_, ?_, ⟨cov, hcov, List.getElem?_cons_zero⟩, ?_⟩
  · simp only [create_pdf_book, hlg, hps]
  · simp only [List.length_cons, hlen]
    omega
  · intro i hi
    obtain ⟨h1, h2⟩ := hidx i hi
    have e2 : 0+i+1 = i+1 := by omega
    rw [e2] at h2
    refine ⟨?_, ?_⟩
    · rw [List.getElem?_cons_succ]
      exact h1
    · have e : 2*i+2 = 2*i+1+1 := by omega
      rw [e, List.getElem?_cons_succ]
      exact h2

theorem create_pdf_book_error_of_lt (title : String) (paragraphs image_data : List String)
    (h : image_data.length < paragraphs.length + 1) :
    create_pdf_book title paragraphs image_data = .error .indexError := by
  cases image_data with
  | nil =>
    have hlg : listGet ([] : List String) 0 = (.error .indexError : Except Err String) := rfl
    simp only [create_pdf_book, hlg]
  | cons d ds =>
    have hne : paragraphs ≠ [] := by
      intro hp; subst hp
      simp only [List.length_cons, List.length_nil] at h
      omega
    obtain ⟨cov, hcov⟩ := getElem?_some_of_lt (d :: ds) 0 (by simp)
    have hlg : listGet (d :: ds) 0 = .ok cov := by
      unfold listGet; rw [hcov]
    have hb := bodyPages_error_of_lt paragraphs 0 (d :: ds) hne (by omega)
    simp only [create_pdf_book, hlg, hb]

/-! ## Claim theorems -/

/-- C2: for every title, every paragraph sequence of length N, and every
image sequence of length N+1, the rendered book has exactly 1 + 2*N
pages in the fixed order: the cover page (drawn from `image_data[0]`
with the title overlaid) first, then for each paragraph i in order a
text page for `paragraphs[i]` followed by an illustration page for
`image_data[i+1]`. -/
theorem create_pdf_book_page_structure (title : String)
    (paragraphs image_data : List String)
    (h : image_data.length = paragraphs.length + 1) :
    ∃ pages, create_pdf_book title paragraphs image_data = .ok pages ∧
      pages.length = 1 + 2 * paragraphs.length ∧
      (∃ cov, image_data[0]? = some cov ∧ pages[0]? = some (Page.cover cov title)) ∧
      ∀ i, i < paragraphs.length →
        pages[2*i+1]? = (paragraphs[i]?).map Page.text ∧
        pages[2*i+2]? = (image_data[i+1]?).map Page.illustration :=
  create_pdf_book_ok_of_le title paragraphs image_data (by omega)

/-- Witness for C2 at title "Pepito", one paragraph and two images. -/
theorem create_pdf_book_page_structure_witness :
    ∃ pages, create_pdf_book "Pepito" ["p0"] ["c", "i0"] = .ok pages ∧
      pages.length = 1 + 2 * (["p0"] : List String).length ∧
      (∃ cov, (["c", "i0"] : List String)[0]? = some cov ∧
        pages[0]? = some (Page.cover cov "Pepito")) ∧
      ∀ i, i < (["p0"] : List String).length →
        pages[2*i+1]? = ((["p0"] : List String)[i]?).map Page.text ∧
        pages[2*i+2]? = ((["c", "i0"] : List String)[i+1]?).map Page.illustration :=
  create_pdf_book_page_structure "Pepito" ["p0"] ["c", "i0"] (by decide)

/-- C5 counterexample: called with two images and zero paragraphs
(`images.length = 2 ≠ 0 + 1`) the layout function succeeds, silently
ignoring the extra image, instead of failing with `InvariantViolation`. -/
theorem create_pdf_book_extra_image_accepted :
    (["a", "b"] : List String).length ≠ ([] : List String).length + 1 ∧
    create_pdf_book "t" [] ["a", "b"] = .ok [Page.cover "a" "t"] := by
  refine ⟨by decide, by decide⟩

/-- C5 corrected: `create_pdf_book` has no explicit precondition check.
With too few images the cover or an illustration subscript raises a
Python `IndexError` (not `InvariantViolation`) and no document is
returned; with `paragraphs.length + 1` or more images it succeeds,
ignoring any extras; `InvariantViolation` is never raised. -/
theorem create_pdf_book_no_invariant_check (title : String)
    (paragraphs image_data : List String) :
    (image_data.length < paragraphs.length + 1 →
      create_pdf_book title paragraphs image_data = .error .indexError) ∧
    (paragraphs.length + 1 ≤ image_data.length →
      ∃ pages, create_pdf_book title paragraphs image_data = .ok pages) ∧
    create_pdf_book title paragraphs image_data ≠ .error .invariantViolation := by
  refine ⟨fun h => create_pdf_book_error_of_lt title paragraphs image_data h, ?_, ?_⟩
  · intro h
    obtain ⟨pages, hp, _⟩ := create_pdf_book_ok_of_le title paragraphs image_data h
    exact ⟨pages, hp⟩
  · by_cases h : image_data.length < paragraphs.length + 1
    · rw [create_pdf_book_error_of_lt title paragraphs image_data h]
      intro hc
      injection hc with hc
      cases hc
    · push_neg at h
      obtain ⟨pages, hp, _⟩ := create_pdf_book_ok_of_le title paragraphs image_data h
      rw [hp]
      intro hc
      cases hc

/-- Witness for C5's corrected statement: one paragraph with no images
raises `IndexError`; zero paragraphs with one image succeeds. -/
theorem create_pdf_book_no_invariant_check_witness :
    create_pdf_book "t" ["p"] [] = .error .indexError ∧
    (∃ pages, create_pdf_book "t" [] ["a"] = .ok pages) :=
  ⟨(create_pdf_book_no_invariant_check "t" ["p"] []).1 (by decide),
   (create_pdf_book_no_invariant_check "t" [] ["a"]).2.1 (by decide)⟩

/-- C9: `create_pdf_book` reads only images 0..N for N paragraphs — two
image sequences of length at least N+1 that agree on their first N+1
elements produce the same document, and extra images never cause a
failure. -/
theorem create_pdf_book_ignores_extra_images (title : String)
    (paragraphs l1 l2 : List String)
    (h1 : paragraphs.length + 1 ≤ l1.length)
    (h2 : paragraphs.length + 1 ≤ l2.length)
    (hagree : l1.take (paragraphs.length + 1) = l2.take (paragraphs.length + 1)) :
    create_pdf_book title paragraphs l1 = create_pdf_book title paragraphs l2 ∧
    ∃ pages, create_pdf_book title paragraphs l1 = .ok pages := by
  have hpt : ∀ j, j < paragraphs.length + 1 → l1[j]? = l2[j]? := by
    intro j hj
    have t1 : (l1.take (paragraphs.length + 1))[j]? = l1[j]? := by
      rw [List.getElem?_take]
      simp [hj]
    have t2 : (l2.take (paragraphs.length + 1))[j]? = l2[j]? := by
      rw [List.getElem?_take]
      simp [hj]
    rw [← t1, ← t2, hagree]
  have hcov : l1[0]? = l2[0]? := hpt 0 (by omega)
  have hbody := bodyPages_congr paragraphs 0 l1 l2 (fun j hj => hpt j (by omega))
  constructor
  · simp only [create_pdf_book, listGet, hcov, hbody]
  · obtain ⟨pages, hp, _⟩ := create_pdf_book_ok_of_le title paragraphs l1 h1
    exact ⟨pages, hp⟩

/-- Witness for C9: appending different extra images leaves the
document unchanged. -/
theorem create_pdf_book_ignores_extra_images_witness :
    create_pdf_book "t" ["p"] ["c", "i", "x"] = create_pdf_book "t" ["p"] ["c", "i", "y"] ∧
    ∃ pages, create_pdf_book "t" ["p"] ["c", "i", "x"] = .ok pages :=
  create_pdf_book_ignores_extra_images "t" ["p"] ["c", "i", "x"] ["c", "i", "y"]
    (by decide) (by decide) (by decide)

/-- C10: when `OPENAI_API_KEY` was unset at startup, both endpoints fail
immediately with HTTP 500 — the result is this fixed error for every
external-service oracle and every schedule, so no external generation
call influences the outcome and no document is constructed. -/
theorem missing_api_key_fails_immediately
    (chat : String → String → Except String String)
    (svc : Nat → String → Option String) (schedule : List Nat)
    (sreq : StoryRequest) (breq : BookRequest) :
    generate_story none chat sreq =
      .error (.httpException 500 "OPENAI_API_KEY is not configured on the server.") ∧
    generate_book none svc schedule breq =
      .error (.httpException 500 "OPENAI_API_KEY is not configured on the server.") :=
  ⟨rfl, rfl⟩

/-- A service double whose calls all succeed. -/
def svcAllOk : Nat → String → Option String := fun _ _ => some "img"

/-- A service double whose calls all fail. -/
def svcAllFail : Nat → String → Option String := fun _ _ => none

/-- A service double failing exactly the call with index 1. -/
def svcFailAt1 : Nat → String → Option String := fun i _ => if i = 1 then none else some "img"

/-- A service double failing exactly the call with index 2. -/
def svcFailAt2 : Nat → String → Option String := fun i _ => if i = 2 then none else some "img"

/-- A service double failing exactly the call with index 5. -/
def svcFailAt5 : Nat → String → Option String := fun i _ => if i = 5 then none else some "img"

/-- C1: on success the fan-out returns exactly N+1 images, position 0
produced from the fixed cover prompt and position i+1 from paragraph i
verbatim, and the same value is returned under every other completion
schedule — completion order never leaks into output order. -/
theorem generate_all_images_aligned (svc : Nat → String → Option String)
    (paragraphs : List String) (schedule schedule2 : List Nat) (imgs : List String)
    (hs : schedule.Perm (List.range (paragraphs.length + 1)))
    (hs2 : schedule2.Perm (List.range (paragraphs.length + 1)))
    (h : generate_all_images svc schedule paragraphs = .ok imgs) :
    imgs.length = paragraphs.length + 1 ∧
    (∃ img, imgs[0]? = some img ∧ generate_image_data (svc 0) cover_prompt = .ok img) ∧
    (∀ i p, paragraphs[i]? = some p →
      ∃ img, imgs[i+1]? = some img ∧ generate_image_data (svc (i+1)) p = .ok img) ∧
    generate_all_images svc schedule2 paragraphs = .ok imgs := by
  have hmap : image_tasks svc 0 (scene_prompts paragraphs) = imgs.map Except.ok := by
    unfold generate_all_images gather at h
    cases hf : firstFailure (image_tasks svc 0 (scene_prompts paragraphs)) schedule with
    | some e => rw [hf] at h; cases h
    | none =>
      rw [hf] at h
      exact eq_map_ok_of_collectOk _ imgs h
  have hlen : imgs.length = paragraphs.length + 1 := by
    have h1 := image_tasks_length svc (scene_prompts paragraphs) 0
    rw [hmap] at h1
    simpa [scene_prompts] using h1
  refine ⟨hlen, ?_, ?_, ?_⟩
  · have ht := image_tasks_getElem? svc (scene_prompts paragraphs) 0 0
    rw [hmap, List.getElem?_map] at ht
    cases hI : imgs[0]? with
    | none => rw [hI] at ht; simp [scene_prompts] at ht
    | some img =>
      rw [hI] at ht
      refine ⟨img, rfl, ?_⟩
      simp only [scene_prompts, List.getElem?_cons_zero, Option.map_some'] at ht
      injection ht with ht
      exact ht.symm
  · intro i p hp
    have ht := image_tasks_getElem? svc (scene_prompts paragraphs) 0 (i+1)
    rw [hmap, List.getElem?_map, Nat.zero_add] at ht
    have hsc : (scene_prompts paragraphs)[i+1]? = some p := by
      simpa [scene_prompts, List.getElem?_cons_succ] using hp
    rw [hsc] at ht
    cases hI : imgs[i+1]? with
    | none => rw [hI] at ht; simp at ht
    | some img =>
      rw [hI] at ht
      refine ⟨img, rfl, ?_⟩
      simp only [Option.map_some'] at ht
      injection ht with ht
      exact ht.symm
  · unfold generate_all_images gather
    rw [hmap, firstFailure_map_ok]
    exact collectOk_map_ok imgs

/-- Witness for C1: one paragraph, all calls succeed, two different
completion schedules. -/
theorem generate_all_images_aligned_witness :
    (["img", "img"] : List String).length = (["p"] : List String).length + 1 ∧
    (∃ img, (["img", "img"] : List String)[0]? = some img ∧
      generate_image_data (svcAllOk 0) cover_prompt = .ok img) ∧
    (∀ i p, (["p"] : List String)[i]? = some p →
      ∃ img, (["img", "img"] : List String)[i+1]? = some img ∧
        generate_image_data (svcAllOk (i+1)) p = .ok img) ∧
    generate_all_images svcAllOk [0, 1] ["p"] = .ok ["img", "img"] :=
  generate_all_images_aligned svcAllOk ["p"] [1, 0] [0, 1] ["img", "img"]
    (by decide) (by decide) (by decide)

/-- C3: whichever single image call fails, the whole book request fails:
for any schedule that completes every call index, the endpoint returns
an error — no partial image results are used and no document (not even a
partial one) is returned. -/
theorem generate_book_all_or_nothing (api_key : Option String)
    (svc : Nat → String → Option String) (schedule : List Nat) (req : BookRequest)
    (i : Nat) (p : String)
    (hp : (scene_prompts req.paragraphs)[i]? = some p)
    (hfail : svc i (full_prompt p) = none)
    (hs : schedule.Perm (List.range (req.paragraphs.length + 1))) :
    ∃ e, generate_book api_key svc schedule req = .error e := by
  cases hkm : keyMissing api_key with
  | true =>
    exact ⟨.httpException 500 "OPENAI_API_KEY is not configured on the server.",
      by simp [generate_book, hkm]⟩
  | false =>
    have hi : i < req.paragraphs.length + 1 := by
      have := lt_length_of_getElem?_some _ i p hp
      simpa [scene_prompts] using this
    have hmem : i ∈ schedule := (hs.mem_iff).2 (List.mem_range.2 hi)
    have htask : (image_tasks svc 0 (scene_prompts req.paragraphs))[i]? =
        some (.error (.httpException 500 ("Failed to generate image for prompt: " ++ p))) := by
      rw [image_tasks_getElem? svc _ 0 i, hp, Nat.zero_add]
      simp [generate_image_data, hfail]
    obtain ⟨f, hf⟩ := firstFailure_isSome_of_mem schedule _ i _ hmem htask
    have hgai : generate_all_images svc schedule req.paragraphs = .error f := by
      unfold generate_all_images gather
      rw [hf]
    exact ⟨f, by simp [generate_book, hkm, hgai]⟩

/-- Witness for C3: the single (cover) call of a zero-paragraph book
fails, and the endpoint returns an error. -/
theorem generate_book_all_or_nothing_witness :
    ∃ e, generate_book (some "k") svcAllFail [0] ⟨"t", []⟩ = .error e :=
  generate_book_all_or_nothing (some "k") svcAllFail [0] ⟨"t", []⟩ 0 cover_prompt
    (by simp [scene_prompts]) rfl (by decide)

/-- C6: every one of the N+1 image calls of a book request receives the
identical style preamble prefixed to its scene description in the same
way: the endpoint consults the external service only at the full prompts
`full_prompt scene` (two services agreeing there are indistinguishable),
and each such full prompt is `ART_STYLE_PROMPT` followed by
"\n\n**Scene:** " followed by the scene text. -/
theorem generate_book_uniform_style_preamble (api_key : Option String)
    (svc svc2 : Nat → String → Option String) (schedule : List Nat) (req : BookRequest)
    (hagree : ∀ (i : Nat) (p : String), (scene_prompts req.paragraphs)[i]? = some p →
      svc i (full_prompt p) = svc2 i (full_prompt p)) :
    generate_book api_key svc schedule req = generate_book api_key svc2 schedule req ∧
    ∀ (i : Nat) (p : String), (scene_prompts req.paragraphs)[i]? = some p →
      full_prompt p = ART_STYLE_PROMPT ++ "\n\n**Scene:** " ++ p := by
  constructor
  · have ht := image_tasks_congr svc svc2 (scene_prompts req.paragraphs) 0
      (fun i p hp => by
        rw [Nat.zero_add]
        exact hagree i p hp)
    unfold generate_book generate_all_images
    rw [ht]
  · intro i p _
    rfl

/-- Witness for C6: a service failing only at call index 5 is
indistinguishable from one that never fails, on a one-paragraph book
(calls 0 and 1). -/
theorem generate_book_uniform_style_preamble_witness :
    generate_book (some "k") svcFailAt5 [0, 1] ⟨"t", ["p"]⟩ =
      generate_book (some "k") svcAllOk [0, 1] ⟨"t", ["p"]⟩ ∧
    ∀ (i : Nat) (p : String), (scene_prompts ["p"])[i]? = some p →
      full_prompt p = ART_STYLE_PROMPT ++ "\n\n**Scene:** " ++ p :=
  generate_book_uniform_style_preamble (some "k") svcFailAt5 svcAllOk [0, 1] ⟨"t", ["p"]⟩
    (by
      intro i p hp
      have hi : i < 2 := by
        have := lt_length_of_getElem?_some _ i p hp
        simpa [scene_prompts] using this
      interval_cases i <;> rfl)

/-- C7 counterexample: with two paragraphs of identical text, a failure
of call index 1 and a failure of call index 2 surface the very same
error to the caller, so the surfaced error does not identify which
scene index failed — it carries only the prompt text. -/
theorem image_failure_error_lacks_index :
    svcFailAt1 1 (full_prompt "a") = none ∧
    svcFailAt1 2 (full_prompt "a") = some "img" ∧
    svcFailAt2 2 (full_prompt "a") = none ∧
    svcFailAt2 1 (full_prompt "a") = some "img" ∧
    generate_book (some "k") svcFailAt1 [0, 1, 2] ⟨"t", ["a", "a"]⟩ =
      generate_book (some "k") svcFailAt2 [0, 1, 2] ⟨"t", ["a", "a"]⟩ ∧
    generate_book (some "k") svcFailAt1 [0, 1, 2] ⟨"t", ["a", "a"]⟩ =
      .error (.httpException 500 "Failed to generate image for prompt: a") := by
  refine ⟨rfl, rfl, rfl, rfl, by decide, by decide⟩

/-- C7 corrected: a failing image call raises HTTP 500 whose detail
repeats the originating scene prompt's text, not its index; scenes with
equal prompt text yield indistinguishable errors. -/
theorem generate_image_data_error_names_prompt (call : String → Option String)
    (prompt : String) (h : call (full_prompt prompt) = none) :
    generate_image_data call prompt =
      .error (.httpException 500 ("Failed to generate image for prompt: " ++ prompt)) := by
  unfold generate_image_data
  rw [h]

/-- Witness for C7's corrected statement at a concrete failing call. -/
theorem generate_image_data_error_names_prompt_witness :
    generate_image_data (fun _ => none) "scene" =
      .error (.httpException 500 "Failed to generate image for prompt: scene") :=
  generate_image_data_error_names_prompt (fun _ => none) "scene" rfl

/-- C4 counterexample: the story endpoint returns the external response
content verbatim even when it cannot be parsed as a title plus exactly
5 paragraphs — it succeeds with the raw string instead of failing. -/
theorem generate_story_returns_raw_response :
    generate_story (some "key") (fun _ _ => .ok "not a story at all") ⟨"un barrilete"⟩ =
      .ok "not a story at all" := by
  decide

/-- C4 corrected: `generate_story` forwards the chat-completion content
verbatim with no shape validation at all — any returned string, of any
paragraph count or no parseable shape, is returned to the caller as is;
only a raised exception from the call yields a failure. -/
theorem generate_story_forwards_content (k : String) (hk : (k == "") = false)
    (chat : String → String → Except String String) (req : StoryRequest) :
    (∀ content, chat system_prompt (user_prompt req.theme) = .ok content →
      generate_story (some k) chat req = .ok content) ∧
    (∀ msg, chat system_prompt (user_prompt req.theme) = .error msg →
      generate_story (some k) chat req =
        .error (.httpException 500 ("Failed to generate story. Error: " ++ msg))) := by
  constructor
  · intro content hc
    simp [generate_story, keyMissing, hk, hc]
  · intro msg hc
    simp [generate_story, keyMissing, hk, hc]

/-- Witness for C4's corrected statement: an arbitrary response string
is passed through. -/
theorem generate_story_forwards_content_witness :
    generate_story (some "key") (fun _ _ => Except.ok "raw") ⟨"t"⟩ = .ok "raw" :=
  (generate_story_forwards_content "key" (by decide) (fun _ _ => Except.ok "raw") ⟨"t"⟩).1
    "raw" rfl

/-- C8 counterexample: with the API key configured, an empty theme is
not rejected — no `InvalidInput` is raised, the external chat call is
made (the outcome tracks the oracle) and its content is returned. -/
theorem empty_theme_not_rejected :
    generate_story (some "k") (fun _ _ => .ok "A") ⟨""⟩ = .ok "A" ∧
    generate_story (some "k") (fun _ _ => .ok "B") ⟨""⟩ = .ok "B" ∧
    generate_story (some "k") (fun _ _ => .ok "A") ⟨""⟩ ≠ .error .invalidInput := by
  refine ⟨by decide, by decide, by decide⟩

/-- C8 corrected: `generate_story` never raises `InvalidInput` and
performs no theme validation: its result depends on the external call
only through the chat response at `(system_prompt, user_prompt theme)`,
for the empty theme exactly as for any other. -/
theorem generate_story_no_theme_check (api_key : Option String)
    (chat chat2 : String → String → Except String String) (req : StoryRequest)
    (h : chat system_prompt (user_prompt req.theme) =
      chat2 system_prompt (user_prompt req.theme)) :
    generate_story api_key chat req ≠ .error .invalidInput ∧
    generate_story api_key chat req = generate_story api_key chat2 req := by
  constructor
  · unfold generate_story
    split
    · simp
    · split <;> simp
  · unfold generate_story
    rw [h]

/-- Witness for C8's corrected statement: an empty-equivalent scenario
with two oracles agreeing on the issued prompt. -/
theorem generate_story_no_theme_check_witness :
    generate_story (some "k") (fun _ u => Except.ok u) ⟨""⟩ ≠ .error .invalidInput ∧
    generate_story (some "k") (fun _ u => Except.ok u) ⟨""⟩ =
      generate_story (some "k") (fun _ _ => Except.ok (user_prompt "")) ⟨""⟩ :=
  generate_story_no_theme_check (some "k") (fun _ u => Except.ok u)
    (fun _ _ => Except.ok (user_prompt "")) ⟨""⟩ rfl

end Fabrica
